import Mathlib

/-!
Verification development for the iceplunge cognitive-task client
(`task_core.js`, `pvt.js`, `sart.js`, `flanker.js`, `digit_symbol.js`,
`mood.js`).  The JavaScript is shallowly embedded: 32-bit integer
arithmetic is `Nat` with explicit `% 2^32`; `performance.now()`
millisecond values are `ℚ`; DOM side effects are elided while every
state variable, timer handle and payload that the lifecycle logic
touches is carried explicitly.
-/

/-! ## Seeded PRNG (Mulberry32), as written in each task module

Each task file defines `makeRng(seed)`: a 31-based string hash of
`seed` (`h = Math.imul(31, h) + seed.charCodeAt(i) | 0`), a per-module
mixing step, and then the shared Mulberry32 draw loop
(`h += 0x6d2b79f5; ...`).  All 32-bit operations are modelled on the
unsigned representative modulo `2^32`, which matches the JavaScript
bit patterns exactly (`Math.imul` is the low 32 bits of the product,
`|0` and the implicit `ToInt32` of `^` wrap modulo `2^32`, `>>>` is an
unsigned shift). -/

def M32 : Nat := 4294967296

/-- One step of the 31-based string hash: `h = (Math.imul(31, h) + c) | 0`. -/
def hashStep (h c : Nat) : Nat := (31 * h + c) % M32

/-- The seed-string hash loop shared by every task module's `makeRng`. -/
def hashCodes (codes : List Nat) : Nat := codes.foldl hashStep 0

/-- UTF-16 code units of a seed string, as `charCodeAt` reads them. -/
def strCodes (s : String) : List Nat := s.data.map Char.toNat

/-- pvt.js / flanker.js mixing step:
`h = (Math.imul(h, 1664525) + 1013904223) | 0`. -/
def mixPF (h : Nat) : Nat := (1664525 * h + 1013904223) % M32

/-- pvt.js `makeRng`: hash the seed string, then mix with the
constants `1664525` / `1013904223`; returns the initial closure state. -/
def Pvt.makeRng (codes : List Nat) : Nat := mixPF (hashCodes codes)

/-- flanker.js `makeRng`: identical hash and mixing constants to pvt.js. -/
def Flanker.makeRng (codes : List Nat) : Nat := mixPF (hashCodes codes)

/-- sart.js `makeRng`: mixing step `h = (Math.imul(h, 22695477) + 1) | 0`. -/
def Sart.makeRng (codes : List Nat) : Nat := (22695477 * hashCodes codes + 1) % M32

/-- digit_symbol.js `makeRng`: mixing step `h = (Math.imul(h, 69069) + 1) | 0`. -/
def DigitSymbol.makeRng (codes : List Nat) : Nat := (69069 * hashCodes codes + 1) % M32

/-- The Mulberry32 state increment `h += 0x6d2b79f5` (wrapped to 32 bits). -/
def rngStateStep (h : Nat) : Nat := (h + 1831565813) % M32

/-- The Mulberry32 output scrambler applied to the post-increment state:
`t = Math.imul(h ^ (h >>> 15), 1 | h); t ^= t + Math.imul(t ^ (t >>> 7), 61 | t);
return ((t ^ (t >>> 14)) >>> 0) / 4294967296`.  We keep the 32-bit
numerator; the JavaScript float is this value divided by `2^32`, and
division by `2^32` is injective, so draw-sequence equality questions
are unchanged. -/
def mulberryOut (h : Nat) : Nat :=
  let t1 := ((h ^^^ (h >>> 15)) * (h ||| 1)) % M32
  let t2 := t1 ^^^ ((t1 + ((t1 ^^^ (t1 >>> 7)) * (t1 ||| 61)) % M32) % M32)
  t2 ^^^ (t2 >>> 14)

/-- One call of the rng closure: increments the captured state and
returns the new state together with the draw. -/
def rngNext (h : Nat) : Nat × Nat := (rngStateStep h, mulberryOut (rngStateStep h))

/-- A stateful run of the generator: the list of the first `n` draws,
threading the closure state exactly as repeated `rng()` calls do. -/
def runDraws (h : Nat) : Nat → List Nat
  | 0 => []
  | n + 1 => mulberryOut (rngStateStep h) :: runDraws (rngStateStep h) n

/-- The closure state after `n` increments. -/
def stateAfter (h : Nat) : Nat → Nat
  | 0 => h
  | n + 1 => rngStateStep (stateAfter h n)

/-- The `i`-th draw (0-based) as a pure function of the initial state
and the index: the `i`-th call returns the scramble of the state after
`i + 1` increments. -/
def drawAt (h : Nat) (i : Nat) : Nat := mulberryOut (stateAfter h (i + 1))

/-! ## task_core.js — shared TaskCore state and API

`TaskCore` keeps `_sessionId`, `_initPerfTime` (a `performance.now()`
value captured in `init`), the in-memory `_interruptions` log and the
registered `_activeTask`.  The DOM/banner work and the fire-and-forget
meta POST are elided; the `detail` object attached to log entries is
elided (only `type` and `at` matter to the claims). -/

/-- One entry of the `_interruptions` log (`logEvent` pushes
`{type, detail, at}`; `detail` elided). -/
structure LogEntry where
  type : String
  atTime : String
deriving DecidableEq

/-- The mutable module state of task_core.js. `hasActiveTask` models
whether `_activeTask` is a registered object with the lifecycle
methods (the listeners guard with
`_activeTask && typeof _activeTask.abort === "function"`). -/
structure CoreState where
  sessionId : Option String
  initPerfTime : Option ℚ
  interruptions : List LogEntry
  hasActiveTask : Bool
deriving DecidableEq

/-- `TaskCore.init(sessionId, csrfToken)`: stores the session id and
captures `performance.now()`; the interruption log starts empty. -/
def TaskCore.init (sessionId : String) (perfNow : ℚ) : CoreState :=
  { sessionId := some sessionId, initPerfTime := some perfNow,
    interruptions := [], hasActiveTask := false }

/-- `TaskCore.logEvent(type, detail)`: appends to `_interruptions`. -/
def TaskCore.logEvent (s : CoreState) (type atTime : String) : CoreState :=
  { s with interruptions := s.interruptions ++ [{ type := type, atTime := atTime }] }

/-- `TaskCore.now()`: `performance.now() - _initPerfTime`, or `0`
before `init` — an absolute-start computation with no pause offset. -/
def TaskCore.now (s : CoreState) (perfNow : ℚ) : ℚ :=
  match s.initPerfTime with
  | none => 0
  | some t0 => perfNow - t0

/-- `TaskCore.registerTask(taskObject)`: replaces `_activeTask`. -/
def TaskCore.registerTask (s : CoreState) : CoreState :=
  { s with hasActiveTask := true }

/-- The `visibilitychange → hidden` listener: logs the event and calls
`_activeTask.pause()` when a task is registered.  The returned `Bool`
records whether `pause()` was invoked.  `_initPerfTime` is untouched. -/
def visibilityHidden (s : CoreState) (wall : String) : CoreState × Bool :=
  (TaskCore.logEvent s "visibility_hidden" wall, s.hasActiveTask)

/-- The `visibilitychange → visible` listener: logs the event and calls
`_activeTask.resume()` when a task is registered.  `_initPerfTime` is
untouched. -/
def visibilityVisible (s : CoreState) (wall : String) : CoreState × Bool :=
  (TaskCore.logEvent s "visibility_visible" wall, s.hasActiveTask)

/-- The `offline` listener in `_attachOfflineListeners`: logs an
`offline` event and calls `_activeTask.abort("offline")` when a task is
registered.  The second component is the reason `abort` was invoked
with (`none` when no task is registered).  No buffering or retry of any
submission happens. -/
def offlineHandler (s : CoreState) (wall : String) : CoreState × Option String :=
  (TaskCore.logEvent s "offline" wall, if s.hasActiveTask then some "offline" else none)

/-- Outcome of `TaskCore.submit`: a client-side rejection (a rejected
Promise carrying an error message, no network request) or a `fetch` of
a body with the given keys. -/
inductive SubmitOutcome where
  | rejected (msg : String)
  | sent (bodyKeys : List String)
deriving DecidableEq

/-- `true` exactly when the outcome is a client-side rejection (no
network request was made). -/
def SubmitOutcome.isRejected : SubmitOutcome → Bool
  | .rejected _ => true
  | .sent _ => false

/-- The `REQUIRED` field list of `TaskCore.submit`, in source order. -/
def REQUIRED : List String :=
  ["session_id", "task_type", "task_version", "started_at", "ended_at",
   "duration_ms", "input_modality", "trials", "summary"]

/-- `TaskCore.submit(payload)`, abstracted to the key set of the
payload object: the loop over `REQUIRED` rejects at the first key not
in the payload; then `!navigator.onLine` rejects; only then is the body
built by merging the stored `session_id` and the `interruptions` log
over the payload (`Object.assign`) and sent with `fetch`. -/
def TaskCore.submit (payloadKeys : List String) (onLine : Bool) : SubmitOutcome :=
  match REQUIRED.find? (fun f => !(payloadKeys.contains f)) with
  | some f => .rejected ("Missing required field: " ++ f)
  | none =>
    if !onLine then .rejected "You are offline. Cannot submit task result."
    else .sent (payloadKeys ++ ["session_id", "interruptions"])

/-! ## Payload keys built by each task module's submit call

Each task's `endTask` (and mood's submit handler) passes an object
literal with exactly these keys to `TaskCore.submit`; none of them
includes `session_id`. -/

/-- Keys of the payload built in pvt.js `endTask`. -/
def pvtPayloadKeys : List String :=
  ["task_type", "task_version", "started_at", "ended_at", "duration_ms",
   "input_modality", "trials", "summary"]

/-- Keys of the payload built in sart.js `endTask`. -/
def sartPayloadKeys : List String :=
  ["task_type", "task_version", "started_at", "ended_at", "duration_ms",
   "input_modality", "trials", "summary"]

/-- Keys of the payload built in flanker.js `endTask`. -/
def flankerPayloadKeys : List String :=
  ["task_type", "task_version", "started_at", "ended_at", "duration_ms",
   "input_modality", "trials", "summary"]

/-- Keys of the payload built in digit_symbol.js `endTask`. -/
def dsPayloadKeys : List String :=
  ["task_type", "task_version", "started_at", "ended_at", "duration_ms",
   "input_modality", "trials", "summary"]

/-- Keys of the payload built in mood.js's submit-button handler. -/
def moodPayloadKeys : List String :=
  ["task_type", "task_version", "started_at", "ended_at", "duration_ms",
   "input_modality", "trials", "summary"]

/-! ## pvt.js — Psychomotor Vigilance Task

Thresholds from the source: `LAPSE_THRESHOLD = 500`,
`ANTICIPATION_THRESHOLD = 100`, `NO_RESPONSE_THRESHOLD = 2000`.
`TaskCore.now()` values are `ℚ` milliseconds; `Math.round` is
`⌊x + 1/2⌋`. -/

/-- `Math.round(x)` for a finite value: floor of `x + 0.5`. -/
def jsRound (x : ℚ) : ℤ := ⌊x + 1/2⌋

/-- pvt.js `LAPSE_THRESHOLD`. -/
def LAPSE_THRESHOLD : ℤ := 500

/-- pvt.js `ANTICIPATION_THRESHOLD`. -/
def ANTICIPATION_THRESHOLD : ℤ := 100

/-- One element of the pvt.js `trials` array. -/
structure PvtTrial where
  stimulus_at_ms : Option ℤ
  response_at_ms : ℤ
  rt_ms : Option ℤ
  is_anticipation : Bool
  is_lapse : Bool
  responded : Bool
deriving DecidableEq

/-- pvt.js `recordResponse(isUserTap)` — the trial object it pushes,
given the captured `stimulusStartMs` (`none` during the ISI) and
`responseMs = TaskCore.now()`.  Returns `none` when nothing is pushed
(the no-response timer firing during the ISI, which cannot happen but
is guarded by `if (!isUserTap) return`). -/
def Pvt.recordResponse (isUserTap : Bool) (stimulusStartMs : Option ℚ)
    (responseMs : ℚ) : Option PvtTrial :=
  match stimulusStartMs with
  | none =>
    if isUserTap then
      some { stimulus_at_ms := none, response_at_ms := jsRound responseMs,
             rt_ms := none, is_anticipation := true, is_lapse := false,
             responded := true }
    else none
  | some stim =>
    let rtMs := jsRound (responseMs - stim)
    some { stimulus_at_ms := some (jsRound stim),
           response_at_ms := jsRound responseMs,
           rt_ms := if isUserTap then some rtMs else none,
           is_anticipation := decide (rtMs < ANTICIPATION_THRESHOLD),
           is_lapse := decide (rtMs > LAPSE_THRESHOLD) || !isUserTap,
           responded := isUserTap }

/-- The closure state of a pvt.js `init` run: the accumulated trials,
the lifecycle flags, one `Bool` per pending timer handle, and the list
of payload trial lists passed to `TaskCore.submit` so far. -/
structure PvtState where
  trials : List PvtTrial
  isRunning : Bool
  isPaused : Bool
  isStopped : Bool
  isiTimer : Bool
  noResponseTimer : Bool
  animTimer : Bool
  taskEndTimer : Bool
  submissions : List (List PvtTrial)
deriving DecidableEq

/-- pvt.js `clearTimers()`: clears all four timer handles. -/
def Pvt.clearTimers (s : PvtState) : PvtState :=
  { s with isiTimer := false, noResponseTimer := false,
           animTimer := false, taskEndTimer := false }

/-- pvt.js `endTask()`: a no-op when already stopped; otherwise stops,
clears every timer and calls `TaskCore.submit` once with a payload
whose `trials` field is the accumulated trial list. -/
def Pvt.endTask (s : PvtState) : PvtState :=
  if s.isStopped then s
  else { Pvt.clearTimers s with
         isStopped := true, isRunning := false,
         submissions := s.submissions ++ [s.trials] }

/-- The `abort(reason)` handler pvt.js registers with
`TaskCore.registerTask`: sets the stop flags and clears the timers —
it does not call `endTask` and makes no submission. -/
def Pvt.abort (s : PvtState) (_reason : String) : PvtState :=
  { Pvt.clearTimers s with isStopped := true, isRunning := false }

/-- The `pause()` handler pvt.js registers: sets `isPaused` and clears
`isiTimer`, `noResponseTimer` and `animTimer` — the source does not
clear `taskEndTimer` here. -/
def Pvt.pause (s : PvtState) : PvtState :=
  { s with isPaused := true, isiTimer := false,
           noResponseTimer := false, animTimer := false }

/-- The `resume()` handler pvt.js registers: clears `isPaused` and
calls `startISI()`, which arms a fresh inter-stimulus timer when the
task is still running. -/
def Pvt.resume (s : PvtState) : PvtState :=
  let s2 := { s with isPaused := false }
  if s2.isRunning then { s2 with isiTimer := true } else s2

/-! ## sart.js — Sustained Attention to Response Task -/

/-- sart.js `NOGO_DIGIT`. -/
def NOGO_DIGIT : Nat := 3

/-- One element of the sart.js `trials` array. -/
structure SartTrial where
  digit : Nat
  is_nogo : Bool
  responded : Bool
  rt_ms : Option ℤ
  is_commission : Bool
  is_omission : Bool
deriving DecidableEq

/-- The trial pushed by sart.js `handleInteraction` (a tap during the
response window): `is_commission` is `isNogo`, `is_omission` is
`false`. -/
def Sart.responseTrial (digit : Nat) (rtMs : ℤ) : SartTrial :=
  { digit := digit, is_nogo := decide (digit = NOGO_DIGIT), responded := true,
    rt_ms := some rtMs, is_commission := decide (digit = NOGO_DIGIT),
    is_omission := false }

/-- The trial pushed at the end of the response window in
`showNextTrial` when no tap was recorded: `is_commission` is `false`,
`is_omission` is `!isNogo`. -/
def Sart.noResponseTrial (digit : Nat) : SartTrial :=
  { digit := digit, is_nogo := decide (digit = NOGO_DIGIT), responded := false,
    rt_ms := none, is_commission := false,
    is_omission := !decide (digit = NOGO_DIGIT) }

/-- The closure state of a sart.js `init` run (timers: `trialTimer`,
`taskEndTimer`), with the trial lists passed to `TaskCore.submit`. -/
structure SartState where
  trials : List SartTrial
  isRunning : Bool
  isPaused : Bool
  isStopped : Bool
  trialTimer : Bool
  taskEndTimer : Bool
  submissions : List (List SartTrial)
deriving DecidableEq

/-- sart.js `endTask()`: no-op when stopped, else stop, clear both
timers and submit the accumulated trials once. -/
def Sart.endTask (s : SartState) : SartState :=
  if s.isStopped then s
  else { s with
         isStopped := true, isRunning := false, trialTimer := false,
         taskEndTimer := false, submissions := s.submissions ++ [s.trials] }

/-- The `abort` handler sart.js registers: stops and clears both
timers; no submission. -/
def Sart.abort (s : SartState) : SartState :=
  { s with isStopped := true, isRunning := false,
           trialTimer := false, taskEndTimer := false }

/-- The `pause` handler sart.js registers: sets `isPaused` and clears
`trialTimer` only — `taskEndTimer` stays pending. -/
def Sart.pause (s : SartState) : SartState :=
  { s with isPaused := true, trialTimer := false }

/-! ## flanker.js — Eriksen Flanker Task -/

/-- One element of the flanker.js `trials` array. -/
structure FlankerTrial where
  arrows : String
  direction : String
  is_congruent : Bool
  responded : Bool
  response : Option String
  correct : Bool
  rt_ms : Option ℤ
deriving DecidableEq

/-- The closure state of a flanker.js `init` run (timers: `trialTimer`,
`taskEndTimer`), with the trial lists passed to `TaskCore.submit`. -/
structure FlankerState where
  trials : List FlankerTrial
  isRunning : Bool
  isPaused : Bool
  isStopped : Bool
  trialTimer : Bool
  taskEndTimer : Bool
  submissions : List (List FlankerTrial)
deriving DecidableEq

/-- flanker.js `endTask()`: no-op when stopped, else stop, clear both
timers (and remove the key handler, elided) and submit the accumulated
trials once. -/
def Flanker.endTask (s : FlankerState) : FlankerState :=
  if s.isStopped then s
  else { s with
         isStopped := true, isRunning := false, trialTimer := false,
         taskEndTimer := false, submissions := s.submissions ++ [s.trials] }

/-- The `abort` handler flanker.js registers: stops, clears both timers
and removes the key handler (elided); no submission. -/
def Flanker.abort (s : FlankerState) : FlankerState :=
  { s with isStopped := true, isRunning := false,
           trialTimer := false, taskEndTimer := false }

/-- The `pause` handler flanker.js registers: sets `isPaused` and
clears `trialTimer` only — `taskEndTimer` stays pending. -/
def Flanker.pause (s : FlankerState) : FlankerState :=
  { s with isPaused := true, trialTimer := false }

/-! ## digit_symbol.js — Digit Symbol Coding Task -/

/-- One element of the digit_symbol.js `trials` array. -/
structure DigitSymbolTrial where
  digit : Nat
  target_symbol : String
  selected_symbol : String
  stimulus_at_ms : ℤ
  response_at_ms : ℤ
  rt_ms : ℤ
  correct : Bool
  responded : Bool
deriving DecidableEq

/-- The closure state of a digit_symbol.js `init` run: its only timer
handle is `taskEndTimer` (trials are response-driven). -/
structure DigitSymbolState where
  trials : List DigitSymbolTrial
  isRunning : Bool
  isPaused : Bool
  isStopped : Bool
  taskEndTimer : Bool
  submissions : List (List DigitSymbolTrial)
deriving DecidableEq

/-- digit_symbol.js `endTask()`: no-op when stopped, else stop, clear
the task-end timer and submit the accumulated trials once. -/
def DigitSymbol.endTask (s : DigitSymbolState) : DigitSymbolState :=
  if s.isStopped then s
  else { s with
         isStopped := true, isRunning := false, taskEndTimer := false,
         submissions := s.submissions ++ [s.trials] }

/-- The `abort` handler digit_symbol.js registers: stops and clears the
task-end timer; no submission. -/
def DigitSymbol.abort (s : DigitSymbolState) : DigitSymbolState :=
  { s with isStopped := true, isRunning := false, taskEndTimer := false }

/-- The `pause` handler digit_symbol.js registers: sets `isPaused` and
nothing else. -/
def DigitSymbol.pause (s : DigitSymbolState) : DigitSymbolState :=
  { s with isPaused := true }

/-! ## Concrete example states used by counterexamples and witnesses -/

/-- The trial of spec §8's worked example: stimulus at 1200 ms,
response at 1500 ms. -/
def pvtTrialEx : PvtTrial :=
  { stimulus_at_ms := some 1200, response_at_ms := 1500, rt_ms := some 300,
    is_anticipation := false, is_lapse := false, responded := true }

/-- A mid-run PVT state: one recorded trial, running, ISI and task-end
timers pending, nothing submitted yet. -/
def pvtS0 : PvtState :=
  { trials := [pvtTrialEx], isRunning := true, isPaused := false,
    isStopped := false, isiTimer := true, noResponseTimer := false,
    animTimer := false, taskEndTimer := true, submissions := [] }

/-- A mid-run PVT state with all four timer handles pending (a
stimulus is on screen: no-response timer and animation frame armed). -/
def pvtS1 : PvtState :=
  { trials := [pvtTrialEx], isRunning := true, isPaused := false,
    isStopped := false, isiTimer := true, noResponseTimer := true,
    animTimer := true, taskEndTimer := true, submissions := [] }

/-- A mid-run SART state: one go trial recorded, both timers pending. -/
def sartS0 : SartState :=
  { trials := [Sart.responseTrial 7 412], isRunning := true, isPaused := false,
    isStopped := false, trialTimer := true, taskEndTimer := true,
    submissions := [] }

/-- A mid-run flanker state: one congruent responded trial recorded,
both timers pending, nothing submitted yet. -/
def flankerS0 : FlankerState :=
  { trials := [{ arrows := "< < < < <", direction := "left", is_congruent := true,
                 responded := true, response := some "left", correct := true,
                 rt_ms := some 412 }],
    isRunning := true, isPaused := false, isStopped := false,
    trialTimer := true, taskEndTimer := true, submissions := [] }

/-- A mid-run digit-symbol state: one correct trial recorded, the
task-end timer pending, nothing submitted yet. -/
def dsS0 : DigitSymbolState :=
  { trials := [{ digit := 4, target_symbol := "★", selected_symbol := "★",
                 stimulus_at_ms := 2000, response_at_ms := 2412, rt_ms := 412,
                 correct := true, responded := true }],
    isRunning := true, isPaused := false, isStopped := false,
    taskEndTimer := true, submissions := [] }

/-! ## Helper lemmas -/

/-- `Math.round` of an integral millisecond value is that integer. -/
theorem jsRound_intCast (n : ℤ) : jsRound ((n : ℚ)) = n := by
  unfold jsRound
  rw [Int.floor_eq_iff]
  constructor
  · norm_num
  · norm_num

/-- The hash step preserves values modulo 2 up to adding the code. -/
theorem hashStep_mod_two (h c : Nat) : hashStep h c % 2 = (h + c) % 2 := by
  unfold hashStep M32; omega

/-- Folding the hash over a code list only adds the code sum modulo 2. -/
theorem foldl_hashStep_mod_two (codes : List Nat) :
    ∀ h : Nat, (codes.foldl hashStep h) % 2 = (h + codes.sum) % 2 := by
  induction codes with
  | nil => intro h; simp
  | cons c cs ih =>
    intro h
    rw [List.foldl_cons, ih (hashStep h c), List.sum_cons]
    have := hashStep_mod_two h c
    omega

/-- Hashing a concatenation continues the fold on the suffix. -/
theorem hashCodes_append (a b : List Nat) :
    hashCodes (a ++ b) = b.foldl hashStep (hashCodes a) := by
  unfold hashCodes; rw [List.foldl_append]

/-- Parity of the hash of `seed ++ salt` is the parity of
`hash seed + sum of salt codes`. -/
theorem hashCodes_append_mod_two (a b : List Nat) :
    hashCodes (a ++ b) % 2 = (hashCodes a + b.sum) % 2 := by
  rw [hashCodes_append]; exact foldl_hashStep_mod_two b (hashCodes a)

/-- The pvt/flanker mixing step flips parity. -/
theorem mixPF_mod_two (h : Nat) : mixPF h % 2 = (h + 1) % 2 := by
  unfold mixPF M32; omega

/-- The Mulberry32 increment flips parity. -/
theorem rngStateStep_mod_two (h : Nat) : rngStateStep h % 2 = (h + 1) % 2 := by
  unfold rngStateStep M32; omega

section RngStructure

attribute [local irreducible] rngStateStep mulberryOut mixPF hashStep

/-- Shifting the start state by one increment shifts states by one step. -/
theorem stateAfter_step (h i : Nat) : stateAfter (rngStateStep h) i = stateAfter h (i + 1) := by
  induction i with
  | zero => simp only [stateAfter]
  | succ i ih => simp only [stateAfter, ih]

/-- Shifting the start state by one increment shifts draw indices by one. -/
theorem drawAt_step (h i : Nat) : drawAt (rngStateStep h) i = drawAt h (i + 1) := by
  unfold drawAt
  rw [stateAfter_step h (i + 1)]

/-- Mapping the shifted draw function is mapping the draw function over
shifted indices. -/
theorem map_succ_drawAt (h : Nat) (l : List Nat) :
    l.map (drawAt (rngStateStep h)) = (l.map Nat.succ).map (drawAt h) := by
  induction l with
  | nil => simp only [List.map_nil]
  | cons a t ih =>
    simp only [List.map_cons]
    exact congrArg₂ List.cons (drawAt_step h a) ih

/-- The stateful draw run equals the pure per-index draw function. -/
theorem runDraws_eq_drawAt (n : Nat) : ∀ h : Nat, runDraws h n = (List.range n).map (drawAt h) := by
  induction n with
  | zero => intro h; rfl
  | succ n ih =>
    intro h
    have hhead : drawAt h 0 = mulberryOut (rngStateStep h) := by
      simp only [drawAt, stateAfter]
    simp only [runDraws]
    calc mulberryOut (rngStateStep h) :: runDraws (rngStateStep h) n
        = drawAt h 0 :: ((List.range n).map Nat.succ).map (drawAt h) :=
          congrArg₂ List.cons hhead.symm
            ((ih (rngStateStep h)).trans (map_succ_drawAt h (List.range n)))
      _ = (List.range (n + 1)).map (drawAt h) := by
          rw [List.range_succ_eq_map, List.map_cons]

/-- Parity of the closure state after `n` increments. -/
theorem stateAfter_mod_two (n : Nat) : ∀ h : Nat, stateAfter h n % 2 = (h + n) % 2 := by
  induction n with
  | zero => intro h; simp [stateAfter]
  | succ n ih =>
    intro h
    rw [← stateAfter_step h n, ih (rngStateStep h)]
    have := rngStateStep_mod_two h
    omega

/-- For every seed, the `"_pvt"`-salted and `"_flanker"`-salted
generators are in different internal states at every step: the summed
code units of the two salts have different parities (441 vs 834), the
31-based hash preserves that difference modulo 2, and the shared mixing
step and the Mulberry32 increment each flip parity on both sides. -/
theorem pvt_flanker_state_ne (seed : List Nat) (n : Nat) :
    stateAfter (Pvt.makeRng (seed ++ strCodes "_pvt")) n
      ≠ stateAfter (Flanker.makeRng (seed ++ strCodes "_flanker")) n := by
  intro heq
  have hs1 : (strCodes "_pvt").sum = 441 := by decide
  have hs2 : (strCodes "_flanker").sum = 834 := by decide
  have h1 := hashCodes_append_mod_two seed (strCodes "_pvt")
  have h2 := hashCodes_append_mod_two seed (strCodes "_flanker")
  rw [hs1] at h1
  rw [hs2] at h2
  have m1 := mixPF_mod_two (hashCodes (seed ++ strCodes "_pvt"))
  have m2 := mixPF_mod_two (hashCodes (seed ++ strCodes "_flanker"))
  have a1 := stateAfter_mod_two n (Pvt.makeRng (seed ++ strCodes "_pvt"))
  have a2 := stateAfter_mod_two n (Flanker.makeRng (seed ++ strCodes "_flanker"))
  simp only [Pvt.makeRng, Flanker.makeRng] at a1 a2 heq
  omega

end RngStructure

/-! ## Claim theorems -/

/-- C6: in pvt.js, every response recorded while a stimulus is visible
whose computed latency is strictly below `ANTICIPATION_THRESHOLD`
(100 ms) yields a trial with `is_anticipation = true` — it is
classified as an anticipation, never as a valid reaction time. -/
theorem pvt_fast_response_is_anticipation (isUserTap : Bool) (stim resp : ℚ)
    (hfast : jsRound (resp - stim) < ANTICIPATION_THRESHOLD) :
    (Pvt.recordResponse isUserTap (some stim) resp).map PvtTrial.is_anticipation
      = some true := by
  simp only [Pvt.recordResponse, Option.map_some]
  simpa using hfast

/-- Witness for the anticipation classification at stimulus onset
1200 ms and response 1250 ms (latency 50 ms). -/
theorem pvt_fast_response_is_anticipation_witness :
    jsRound ((1250 : ℚ) - 1200) < ANTICIPATION_THRESHOLD ∧
    (Pvt.recordResponse true (some 1200) 1250).map PvtTrial.is_anticipation = some true :=
  ⟨by rw [show ((1250 : ℚ) - 1200) = ((50 : ℤ) : ℚ) by norm_num, jsRound_intCast]; decide,
   pvt_fast_response_is_anticipation true 1200 1250
     (by rw [show ((1250 : ℚ) - 1200) = ((50 : ℤ) : ℚ) by norm_num, jsRound_intCast]; decide)⟩

/-- C7: in pvt.js, a response at in-task offset 1500 ms with stimulus
onset 1200 ms records reaction time exactly 300 ms, classified neither
as a lapse (300 is not greater than `LAPSE_THRESHOLD = 500`) nor as an
anticipation (300 is not below `ANTICIPATION_THRESHOLD = 100`); the
seed plays no role in `recordResponse`. -/
theorem pvt_example_rt_300 :
    Pvt.recordResponse true (some 1200) 1500 =
      some { stimulus_at_ms := some 1200, response_at_ms := 1500, rt_ms := some 300,
             is_anticipation := false, is_lapse := false, responded := true } := by
  have hrt : jsRound ((1500 : ℚ) - 1200) = 300 := by
    rw [show ((1500 : ℚ) - 1200) = ((300 : ℤ) : ℚ) by norm_num, jsRound_intCast]
  have hstim : jsRound ((1200 : ℚ)) = 1200 := by
    rw [show ((1200 : ℚ)) = ((1200 : ℤ) : ℚ) by norm_num, jsRound_intCast]
  have hresp : jsRound ((1500 : ℚ)) = 1500 := by
    rw [show ((1500 : ℚ)) = ((1500 : ℤ) : ℚ) by norm_num, jsRound_intCast]
  simp [Pvt.recordResponse, hrt, hstim, hresp, ANTICIPATION_THRESHOLD, LAPSE_THRESHOLD]

/-- C8: the seeded generator is deterministic — for every seed and
per-task salt, running the stateful closure produced by each module's
`makeRng` yields draw-for-draw the sequence given by a pure function of
the hashed seed-plus-salt and the draw index alone, so repeated runs
from the same seed string and salt agree at every draw and depend on
nothing else. -/
theorem generator_deterministic (seed salt : List Nat) (n : Nat) :
    runDraws (Pvt.makeRng (seed ++ salt)) n
      = (List.range n).map (drawAt (Pvt.makeRng (seed ++ salt)))
    ∧ runDraws (Sart.makeRng (seed ++ salt)) n
      = (List.range n).map (drawAt (Sart.makeRng (seed ++ salt)))
    ∧ runDraws (Flanker.makeRng (seed ++ salt)) n
      = (List.range n).map (drawAt (Flanker.makeRng (seed ++ salt)))
    ∧ runDraws (DigitSymbol.makeRng (seed ++ salt)) n
      = (List.range n).map (drawAt (DigitSymbol.makeRng (seed ++ salt))) :=
  ⟨runDraws_eq_drawAt n _, runDraws_eq_drawAt n _,
   runDraws_eq_drawAt n _, runDraws_eq_drawAt n _⟩

/-- C9 as stated is false: the identity enters the generator only
through the 31-based 32-bit string hash, and the distinct identities
`"Aa"` and `"BB"` hash identically after any common seed prefix
(`31*65 + 97 = 31*66 + 66`), so under seed `"abc123"` the two salted
generators built with the pvt/flanker mixing constants coincide
state-for-state and hence draw-for-draw. -/
theorem rng_identity_collision :
    strCodes "Aa" ≠ strCodes "BB"
    ∧ Pvt.makeRng (strCodes ("abc123" ++ "Aa")) = Pvt.makeRng (strCodes ("abc123" ++ "BB"))
    ∧ runDraws (Pvt.makeRng (strCodes ("abc123" ++ "Aa")))
      = runDraws (Pvt.makeRng (strCodes ("abc123" ++ "BB"))) := by
  refine ⟨by decide, by decide, ?_⟩
  exact congrArg runDraws (by decide)

/-- C9 amended: the salted hashes of the code's actual task identities
`"_pvt"` and `"_flanker"` differ in parity for every seed, so those two
generators are never in identical internal states at any draw index;
and for the example seed `"abc123"` the two sequences differ already at
the first draw. -/
theorem pvt_flanker_sequences_differ :
    (∀ (seed : List Nat) (n : Nat),
      stateAfter (Pvt.makeRng (seed ++ strCodes "_pvt")) n
        ≠ stateAfter (Flanker.makeRng (seed ++ strCodes "_flanker")) n)
    ∧ drawAt (Pvt.makeRng (strCodes "abc123_pvt")) 0
        ≠ drawAt (Flanker.makeRng (strCodes "abc123_flanker")) 0 :=
  ⟨pvt_flanker_state_ne, by decide⟩

/-- C10: in sart.js, a responded trial is a commission exactly when the
digit is the no-go digit 3, a non-responded trial is an omission
exactly when the digit is not 3, and no recorded trial is both a
commission and an omission. -/
theorem sart_commission_omission (d : Nat) (rtMs : ℤ) :
    ((Sart.responseTrial d rtMs).is_commission = true ↔ d = NOGO_DIGIT)
    ∧ ((Sart.noResponseTrial d).is_omission = true ↔ d ≠ NOGO_DIGIT)
    ∧ ¬((Sart.responseTrial d rtMs).is_commission = true
        ∧ (Sart.responseTrial d rtMs).is_omission = true)
    ∧ ¬((Sart.noResponseTrial d).is_commission = true
        ∧ (Sart.noResponseTrial d).is_omission = true) := by
  refine ⟨?_, ?_, ?_, ?_⟩ <;> simp [Sart.responseTrial, Sart.noResponseTrial]

/-- C1 as stated is false: the `abort` handler pvt.js registers only
sets the stop flags and clears timers; at a concrete mid-run state it
produces the terminal stopped state while the number of `TaskCore.submit`
calls stays 0 instead of increasing by one. -/
theorem pvt_abort_makes_no_submission :
    pvtS0.isStopped = false
    ∧ (Pvt.abort pvtS0 "manual_abort").isStopped = true
    ∧ ¬((Pvt.abort pvtS0 "manual_abort").submissions.length
        = pvtS0.submissions.length + 1) := by
  refine ⟨rfl, rfl, ?_⟩
  decide

/-- C1 amended: in every one of the four runners (pvt.js, sart.js,
flanker.js, digit_symbol.js), natural completion (`endTask` from a
non-stopped state) triggers exactly one submission whose payload
carries all accumulated trials (`TaskCore.submit` then merges the
interruption log into the body), while the `abort(reason)` path reaches
the terminal state with no submission at all. -/
theorem end_task_submits_once_abort_never (s : PvtState) (t : SartState)
    (f : FlankerState) (d : DigitSymbolState) (r : String)
    (hs : s.isStopped = false) (ht : t.isStopped = false)
    (hf : f.isStopped = false) (hd : d.isStopped = false) :
    (Pvt.endTask s).submissions = s.submissions ++ [s.trials]
    ∧ (Pvt.endTask s).isStopped = true
    ∧ (Pvt.abort s r).submissions = s.submissions
    ∧ (Pvt.abort s r).isStopped = true
    ∧ (Sart.endTask t).submissions = t.submissions ++ [t.trials]
    ∧ (Sart.endTask t).isStopped = true
    ∧ (Sart.abort t).submissions = t.submissions
    ∧ (Sart.abort t).isStopped = true
    ∧ (Flanker.endTask f).submissions = f.submissions ++ [f.trials]
    ∧ (Flanker.endTask f).isStopped = true
    ∧ (Flanker.abort f).submissions = f.submissions
    ∧ (Flanker.abort f).isStopped = true
    ∧ (DigitSymbol.endTask d).submissions = d.submissions ++ [d.trials]
    ∧ (DigitSymbol.endTask d).isStopped = true
    ∧ (DigitSymbol.abort d).submissions = d.submissions
    ∧ (DigitSymbol.abort d).isStopped = true := by
  refine ⟨?_, ?_, rfl, rfl, ?_, ?_, rfl, rfl, ?_, ?_, rfl, rfl, ?_, ?_, rfl, rfl⟩ <;>
    simp [Pvt.endTask, Sart.endTask, Flanker.endTask, DigitSymbol.endTask,
      Pvt.clearTimers, hs, ht, hf, hd]

/-- Witness: the completion/abort submission behaviour evaluated at the
concrete mid-run states `pvtS0`, `sartS0`, `flankerS0` and `dsS0`. -/
theorem end_task_submits_once_abort_never_witness :
    pvtS0.isStopped = false ∧ sartS0.isStopped = false
    ∧ flankerS0.isStopped = false ∧ dsS0.isStopped = false
    ∧ ((Pvt.endTask pvtS0).submissions = pvtS0.submissions ++ [pvtS0.trials]
       ∧ (Pvt.endTask pvtS0).isStopped = true
       ∧ (Pvt.abort pvtS0 "timeout").submissions = pvtS0.submissions
       ∧ (Pvt.abort pvtS0 "timeout").isStopped = true
       ∧ (Sart.endTask sartS0).submissions = sartS0.submissions ++ [sartS0.trials]
       ∧ (Sart.endTask sartS0).isStopped = true
       ∧ (Sart.abort sartS0).submissions = sartS0.submissions
       ∧ (Sart.abort sartS0).isStopped = true
       ∧ (Flanker.endTask flankerS0).submissions = flankerS0.submissions ++ [flankerS0.trials]
       ∧ (Flanker.endTask flankerS0).isStopped = true
       ∧ (Flanker.abort flankerS0).submissions = flankerS0.submissions
       ∧ (Flanker.abort flankerS0).isStopped = true
       ∧ (DigitSymbol.endTask dsS0).submissions = dsS0.submissions ++ [dsS0.trials]
       ∧ (DigitSymbol.endTask dsS0).isStopped = true
       ∧ (DigitSymbol.abort dsS0).submissions = dsS0.submissions
       ∧ (DigitSymbol.abort dsS0).isStopped = true) :=
  ⟨rfl, rfl, rfl, rfl,
   end_task_submits_once_abort_never pvtS0 sartS0 flankerS0 dsS0 "timeout" rfl rfl rfl rfl⟩

/-- C2: every task module's payload omits `session_id`, and
`TaskCore.submit` checks the `REQUIRED` keys before merging the stored
session id, so each of the five submissions is rejected client-side
with `Missing required field: session_id` and nothing is sent,
regardless of connectivity. -/
theorem submit_rejects_missing_session_id (onLine : Bool) :
    TaskCore.submit pvtPayloadKeys onLine = .rejected "Missing required field: session_id"
    ∧ TaskCore.submit sartPayloadKeys onLine = .rejected "Missing required field: session_id"
    ∧ TaskCore.submit flankerPayloadKeys onLine = .rejected "Missing required field: session_id"
    ∧ TaskCore.submit dsPayloadKeys onLine = .rejected "Missing required field: session_id"
    ∧ TaskCore.submit moodPayloadKeys onLine = .rejected "Missing required field: session_id" :=
  ⟨rfl, rfl, rfl, rfl, rfl⟩

/-- C3 as stated is false: with `init` at performance time 0, a pause
(visibility hidden) at 1000 and a resume at 3000 — a paused interval of
length 2000 — `TaskCore.now` at performance time 4000 returns 4000, the
full absolute offset, not the pause-excluding 2000. -/
theorem now_includes_paused_interval :
    TaskCore.now
      ((visibilityVisible ((visibilityHidden (TaskCore.init "s1" 0) "w1").1) "w2").1) 4000
      = 4000
    ∧ (4000 : ℚ) ≠ 4000 - 2000 := by
  constructor
  · show (4000 : ℚ) - 0 = 4000
    norm_num
  · norm_num

/-- C3 amended: `TaskCore.now` is the absolute offset
`performance.now() - _initPerfTime`; the visibility pause/resume
handlers do not touch `_initPerfTime` and no cumulative pause offset
exists, so elapsed in-task time includes paused intervals. -/
theorem now_is_absolute_offset (s : CoreState) (w1 w2 : String) (p t0 : ℚ) :
    TaskCore.now ((visibilityVisible ((visibilityHidden s w1).1) w2).1) p
      = TaskCore.now s p
    ∧ TaskCore.now { s with initPerfTime := some t0 } p = p - t0 :=
  ⟨rfl, rfl⟩

/-- C5: a `TaskCore.submit` call made while the browser is offline is
rejected client-side (no `fetch` happens) for every payload, and the
`offline` event handler logs the event and invokes the active task's
`abort` with reason `"offline"` — no buffering or retry. -/
theorem offline_submit_rejected_and_abort :
    (∀ keys : List String, (TaskCore.submit keys false).isRejected = true)
    ∧ (∀ (s : CoreState) (wall : String),
        (offlineHandler { s with hasActiveTask := true } wall).2 = some "offline"
        ∧ (offlineHandler { s with hasActiveTask := true } wall).1.interruptions
          = s.interruptions ++ [{ type := "offline", atTime := wall }]) := by
  constructor
  · intro keys
    unfold TaskCore.submit
    cases h : REQUIRED.find? (fun f => !(keys.contains f)) with
    | some f => rfl
    | none => rfl
  · intro s wall
    exact ⟨rfl, rfl⟩

/-- C4: evaluated at concrete mid-run states with every timer pending,
the registered `pause` handlers cancel the trial-level timers but leave
the task-end timer pending (pvt.js clears `isiTimer`,
`noResponseTimer`, `animTimer` but not `taskEndTimer`; sart.js and
flanker.js clear only `trialTimer`), so `endTask` can still fire while
paused, contradicting the contract that pause freezes all timers. -/
theorem pause_leaves_task_end_timer_pending :
    (Pvt.pause pvtS1).isPaused = true
    ∧ (Pvt.pause pvtS1).isiTimer = false
    ∧ (Pvt.pause pvtS1).noResponseTimer = false
    ∧ (Pvt.pause pvtS1).animTimer = false
    ∧ (Pvt.pause pvtS1).taskEndTimer = true
    ∧ (Sart.pause sartS0).taskEndTimer = true
    ∧ (Flanker.pause flankerS0).taskEndTimer = true := by
  decide
